import Mathlib

/-!
Verification of the Mpesa_PaySTK payment service core
(src/python/app.py) against its natural-language specification.

The embedding models the JSON/Python value domain that flows through the
handlers, the MongoDB transaction store as a list of documents, and the
three core operations: initiate_stk_push, handle_callback and
get_transactions.  Impure inputs of the Python code (current time, the
parsed provider response, configuration, the generated password and
timestamp) become explicit parameters.  Python floats are modelled as
exact rationals; this is faithful for every comparison the code performs
on the concrete values appearing below.
-/

/-- Model of a Python/JSON scalar value as it appears in request and
callback payloads and in stored documents.  Python None and BSON null
are both vnull; numbers keep their Python type split (int vs float). -/
inductive PyVal where
  | vnull : PyVal
  | vbool : Bool → PyVal
  | vint : Int → PyVal
  | vfloat : Rat → PyVal
  | vstr : String → PyVal
deriving DecidableEq, Repr

/-- Python truth of the comparison value == 0 (app.py line 283/290:
result_code == 0).  Int 0, float 0.0 and bool False all compare equal
to 0 in Python; strings and None never do. -/
def pyEqZero : PyVal → Bool
  | .vint n => n == 0
  | .vbool b => !b
  | .vfloat q => q == 0
  | .vstr _ => false
  | .vnull => false

/-- result_code == 0 where result_code = stk_callback.get('ResultCode')
may be absent (Python None == 0 is False). -/
def resultIsZero (rc : Option PyVal) : Bool :=
  match rc with
  | some v => pyEqZero v
  | none => false

/-- Collapse of dict.get: an absent value is Python None, i.e. null. -/
def optPy : Option PyVal → PyVal
  | some v => v
  | none => .vnull

/-- Boolean list-prefix test, the model of Python str.startswith. -/
def listStarts : List Char → List Char → Bool
  | [], _ => true
  | _ :: _, [] => false
  | p :: ps, c :: cs => p == c && listStarts ps cs

/-- phone.startswith(pre) on the character sequences of the strings. -/
def strStarts (s pre : String) : Bool := listStarts pre.data s.data

/-- re.sub of all non-digit characters (app.py line 68). -/
def stripNonDigits (s : String) : String :=
  String.mk (List.filter Char.isDigit s.data)

/-- validate_phone_number (app.py lines 63-79): raw-emptiness check,
strip non-digits, then the 254 country-code check, then the 12-digit
length check, then the Safaricom 2547/2541 prefix check, in the order
the source performs them. -/
def validate_phone_number (phone : String) : Bool × String :=
  if phone == "" then (false, "Phone number is required")
  else
    let p := stripNonDigits phone
    if !(strStarts p "254") then (false, "Phone number must start with 254")
    else if p.length != 12 then
      (false, "Phone number must be 12 digits (254XXXXXXXXX)")
    else if !(strStarts p "2547" || strStarts p "2541") then
      (false, "Phone number must be a valid Safaricom number")
    else (true, p)

/-- data.get('phone') may be absent: Python None is falsy, giving the
same missing-input branch as the empty string. -/
def validate_phone_opt : Option String → Bool × String
  | none => (false, "Phone number is required")
  | some s => validate_phone_number s

/-- Numeric value of a digit run, most significant first. -/
def digitsVal (l : List Char) : Nat :=
  List.foldl (fun a c => a * 10 + (c.toNat - 48)) 0 l

/-- Model of the Python float() builtin on plain decimal literals of
the shape [sign]digits[.digits].  Exponents, inf, nan, surrounding
whitespace and underscores are outside the model; no claim below
depends on them. -/
def parseRatOpt (s : String) : Option Rat :=
  let core := fun (l : List Char) =>
    let ip := List.takeWhile Char.isDigit l
    let rest := List.dropWhile Char.isDigit l
    match rest with
    | [] => if ip.isEmpty then none else some ((digitsVal ip : Rat))
    | '.' :: fp =>
      if List.all fp Char.isDigit && !(ip.isEmpty && fp.isEmpty) then
        some ((digitsVal ip : Rat) + (digitsVal fp : Rat) / ((10 : Rat) ^ fp.length))
      else none
    | _ => none
  match s.data with
  | '-' :: t => (core t).map (fun q => -q)
  | '+' :: t => core t
  | t => core t

/-- float(amount) (app.py line 84): ints and floats convert, booleans
convert to 0.0/1.0, strings parse as decimal literals, None raises. -/
def pyFloatOpt : PyVal → Option Rat
  | .vint n => some (n : Rat)
  | .vfloat q => some q
  | .vbool b => some (if b then 1 else 0)
  | .vstr s => parseRatOpt s
  | .vnull => none

/-- Outcome of validate_amount: the parsed float or the error text. -/
inductive AmountCheck where
  | ok : Rat → AmountCheck
  | err : String → AmountCheck
deriving DecidableEq, Repr

/-- validate_amount (app.py lines 81-91) with the configured bounds
MIN_AMOUNT = 1 and MAX_AMOUNT = 70000 (config.py lines 48-49). -/
def validate_amount (v : PyVal) : AmountCheck :=
  match pyFloatOpt v with
  | none => .err "Invalid amount format"
  | some a =>
    if a < 1 then .err "Amount must be at least 1 KES"
    else if a > 70000 then .err "Amount cannot exceed 70000 KES"
    else .ok a

/-- Python int() on a float value: truncation toward zero. -/
def pyTrunc (q : Rat) : Int :=
  if 0 ≤ q then q.floor else -(Rat.floor (-q))

/-- A stored transaction document.  Fields written only at
reconciliation are Option-valued: none means the field is absent from
the document, some vnull means it was explicitly set to null. -/
structure Transaction where
  phone : PyVal
  amount : PyVal
  status : String
  account_reference : String
  transaction_desc : String
  created_at : Nat
  checkout_request_id : PyVal
  merchant_request_id : PyVal
  customer_message : String
  request_id : String
  result_code : Option PyVal
  result_desc : Option PyVal
  updated_at : Option Nat
  transaction_id : Option PyVal
  transaction_date : Option PyVal
  balance : Option PyVal
deriving DecidableEq, Repr

/-- One entry of CallbackMetadata.Item: both keys are read with .get
and may be absent. -/
structure MetaItem where
  name : Option String
  value : Option PyVal
deriving DecidableEq, Repr

/-- The parsed Body.stkCallback object of a callback whose nested
result structure is present. -/
structure StkCallback where
  resultCode : Option PyVal
  resultDesc : Option PyVal
  checkoutRequestID : Option String
  callbackMetadata : List MetaItem
deriving DecidableEq, Repr

/-- Flattening of the metadata list into a dict followed by .get
(app.py lines 293-295): a later item with the same name overwrites an
earlier one, and an absent key or absent Value both give None. -/
def metaDictGet (items : List MetaItem) (key : String) : PyVal :=
  match List.find? (fun it => it.name == some key) items.reverse with
  | some it => optPy it.value
  | none => .vnull

/-- update_data['status'] (app.py line 283). -/
def targetStatus (rc : Option PyVal) : String :=
  if resultIsZero rc then "SUCCESS" else "FAILED"

/-- The $set document of handle_callback applied to one stored
transaction (app.py lines 282-303): status, result_code, result_desc
and updated_at always; on a zero result code also the five metadata
fields, each possibly null. -/
def applyUpdate (now : Nat) (stk : StkCallback) (t : Transaction) : Transaction :=
  let base := { t with
    status := targetStatus stk.resultCode
    result_code := some (optPy stk.resultCode)
    result_desc := some (optPy stk.resultDesc)
    updated_at := some now }
  if resultIsZero stk.resultCode then
    { base with
      amount := metaDictGet stk.callbackMetadata "Amount"
      phone := metaDictGet stk.callbackMetadata "PhoneNumber"
      transaction_id := some (metaDictGet stk.callbackMetadata "MpesaReceiptNumber")
      transaction_date := some (metaDictGet stk.callbackMetadata "TransactionDate")
      balance := some (metaDictGet stk.callbackMetadata "Balance") }
  else base

/-- update_one: rewrite the first document satisfying the filter,
reporting whether one matched. -/
def updateFirst (p : Transaction → Bool) (f : Transaction → Transaction) :
    List Transaction → List Transaction × Bool
  | [] => ([], false)
  | t :: ts =>
    if p t then (f t :: ts, true)
    else
      let r := updateFirst p f ts
      (t :: r.1, r.2)

/-- HTTP-level outcome of the callback handler. -/
inductive CallbackResult where
  | badRequest : String → CallbackResult
  | notFound : CallbackResult
  | ok : String → CallbackResult
deriving DecidableEq, Repr

/-- handle_callback (app.py lines 274-320) on a callback whose nested
stkCallback structure is present, with the current time explicit.
A missing or empty CheckoutRequestID is falsy and yields 400; an
unmatched identifier yields 404; otherwise the first matching document
receives the unconditional $set update and the computed status is
returned. -/
def handle_callback (now : Nat) (stk : StkCallback) (store : List Transaction) :
    List Transaction × CallbackResult :=
  match stk.checkoutRequestID with
  | none => (store, .badRequest "CheckoutRequestID is required")
  | some id =>
    if id == "" then (store, .badRequest "CheckoutRequestID is required")
    else
      let upd := updateFirst (fun t => t.checkout_request_id == PyVal.vstr id)
        (applyUpdate now stk) store
      if upd.2 then (upd.1, .ok (targetStatus stk.resultCode))
      else (upd.1, .notFound)

/-- The configuration values that enter the STK payload. -/
structure AppConfig where
  business_shortcode : String
  callback_url : String
deriving DecidableEq, Repr

/-- The provider payload built at app.py lines 184-196. -/
structure StkPayload where
  businessShortCode : String
  password : String
  timestamp : String
  transactionType : String
  amount : Int
  partyA : String
  partyB : String
  phoneNumber : String
  callBackURL : String
  accountReference : String
  transactionDesc : String
deriving DecidableEq, Repr

/-- The parsed JSON body of an initiation request (app.py lines
162-165): phone and amount may be absent, the two text fields default
when absent. -/
structure InitData where
  phone : Option String
  amount : PyVal
  account_reference : Option String
  transaction_desc : Option String
deriving DecidableEq, Repr

/-- The parsed synchronous provider response after a successful HTTP
round trip.  isSome errorCode models key presence (the source tests
membership, not truthiness, at line 215). -/
structure ProviderResponse where
  errorCode : Option PyVal
  errorMessage : Option PyVal
  checkoutRequestID : Option String
  merchantRequestID : Option String
  customerMessage : Option String
  requestID : Option String
deriving DecidableEq, Repr

/-- HTTP-level outcome of initiate_stk_push on the modelled paths. -/
inductive InitResult where
  | validationError : String → InitResult
  | rejected : PyVal → InitResult
  | conflict : InitResult
  | ok : Option String → Option String → Option String → InitResult
deriving DecidableEq, Repr

/-- response_data.get for a string field: absent becomes null. -/
def optStrPy : Option String → PyVal
  | some s => .vstr s
  | none => .vnull

/-- initiate_stk_push (app.py lines 155-251) with the impure inputs
explicit: current time, configuration, the generated password and
timestamp, and the parsed provider response of the submission call.
Returns the store after the call, the HTTP-level result, and the
payload submitted to the provider (none when validation stopped the
request before submission). -/
def initiate_stk_push (now : Nat) (cfg : AppConfig) (password timestamp : String)
    (data : InitData) (resp : ProviderResponse) (store : List Transaction) :
    List Transaction × InitResult × Option StkPayload :=
  let pv := validate_phone_opt data.phone
  if !pv.1 then (store, .validationError pv.2, none)
  else
    match validate_amount data.amount with
    | .err m => (store, .validationError m, none)
    | .ok amt =>
      let phone_result := pv.2
      let account_reference := data.account_reference.getD "Payment"
      let transaction_desc := data.transaction_desc.getD "Payment for goods/services"
      let payload : StkPayload := {
        businessShortCode := cfg.business_shortcode
        password := password
        timestamp := timestamp
        transactionType := "CustomerPayBillOnline"
        amount := pyTrunc amt
        partyA := phone_result
        partyB := cfg.business_shortcode
        phoneNumber := phone_result
        callBackURL := cfg.callback_url
        accountReference := account_reference
        transactionDesc := transaction_desc }
      if resp.errorCode.isSome then
        (store,
         .rejected (match resp.errorMessage with
                    | some v => v
                    | none => .vstr "Unknown error"),
         some payload)
      else
        let txn : Transaction := {
          phone := .vstr phone_result
          amount := .vfloat amt
          status := "PENDING"
          account_reference := account_reference
          transaction_desc := transaction_desc
          created_at := now
          checkout_request_id := optStrPy resp.checkoutRequestID
          merchant_request_id := optStrPy resp.merchantRequestID
          customer_message := resp.customerMessage.getD ""
          request_id := resp.requestID.getD ""
          result_code := none
          result_desc := none
          updated_at := none
          transaction_id := none
          transaction_date := none
          balance := none }
        if store.any (fun t => t.checkout_request_id == txn.checkout_request_id) then
          (store, .conflict, some payload)
        else
          (store ++ [txn],
           .ok resp.checkoutRequestID resp.merchantRequestID resp.customerMessage,
           some payload)

/-- The find filter of get_transactions (app.py lines 339-343): an
absent or empty query argument is falsy and adds no condition; a
present status is upper-cased before matching. -/
def matchesQuery (phone status : Option String) (t : Transaction) : Bool :=
  (match phone with
   | some p => if p == "" then true else t.phone == PyVal.vstr p
   | none => true) &&
  (match status with
   | some s => if s == "" then true else t.status == s.toUpper
   | none => true)

/-- get_transactions (app.py lines 334-361): filter, sort by
created_at descending, skip, limit capped at 100, and the full
filtered count reported separately.  Returns (page, count, total). -/
def get_transactions (phone status : Option String) (limit skip : Nat)
    (store : List Transaction) : List Transaction × Nat × Nat :=
  let lim := min limit 100
  let q := matchesQuery phone status
  let sorted := List.mergeSort (store.filter q)
    (fun a b => decide (b.created_at ≤ a.created_at))
  let page := (sorted.drop skip).take lim
  (page, page.length, (store.filter q).length)

/-- The regular expression 254[17] then eight digits, digit by digit,
used by the specification to characterize acceptable normalized
phones.  A 12-character all-digit string matches exactly when it
starts with 254 and its 4th digit is 1 or 7. -/
def matchesKenyan (s : String) : Bool :=
  match s.data with
  | '2' :: '5' :: '4' :: c :: rest =>
    (c == '1' || c == '7') && rest.length == 8 && List.all rest Char.isDigit
  | _ => false

/-! Concrete fixtures used by witnesses and counterexamples -/

/-- Configuration used by the concrete runs below. -/
def cfg0 : AppConfig :=
  { business_shortcode := "174379", callback_url := "https://example.com/callback" }

/-- A freshly inserted PENDING transaction keyed ws_CO_1. -/
def pendingTxn : Transaction := {
  phone := .vstr "254708374149"
  amount := .vfloat 100
  status := "PENDING"
  account_reference := "Payment"
  transaction_desc := "Payment for goods/services"
  created_at := 0
  checkout_request_id := .vstr "ws_CO_1"
  merchant_request_id := .vstr "m1"
  customer_message := ""
  request_id := ""
  result_code := none
  result_desc := none
  updated_at := none
  transaction_id := none
  transaction_date := none
  balance := none }

/-- The transaction ws_CO_1 after a ResultCode-1 callback at time 1:
a terminal FAILED document. -/
def failedTxn : Transaction := { pendingTxn with
  status := "FAILED"
  result_code := some (.vint 1)
  result_desc := some (.vstr "The balance is insufficient for the transaction.")
  updated_at := some 1 }

/-- A successful callback for ws_CO_1 with full metadata. -/
def cbSuccess : StkCallback := {
  resultCode := some (.vint 0)
  resultDesc := some (.vstr "The service request is processed successfully.")
  checkoutRequestID := some "ws_CO_1"
  callbackMetadata := [
    { name := some "Amount", value := some (.vint 100) },
    { name := some "MpesaReceiptNumber", value := some (.vstr "QK1") },
    { name := some "TransactionDate", value := some (.vint 20231201120000) },
    { name := some "PhoneNumber", value := some (.vint 254708374149) }] }

/-- A failed callback (ResultCode 1) for ws_CO_1, no metadata. -/
def cbFail : StkCallback := {
  resultCode := some (.vint 1)
  resultDesc := some (.vstr "The balance is insufficient for the transaction.")
  checkoutRequestID := some "ws_CO_1"
  callbackMetadata := [] }

/-- A callback referencing an identifier never inserted. -/
def cbUnknown : StkCallback := { cbFail with checkoutRequestID := some "ws_CO_999" }

/-- A ResultCode-0 callback whose metadata omits MpesaReceiptNumber. -/
def cbSuccessNoReceipt : StkCallback := {
  resultCode := some (.vint 0)
  resultDesc := some (.vstr "The service request is processed successfully.")
  checkoutRequestID := some "ws_CO_1"
  callbackMetadata := [
    { name := some "Amount", value := some (.vint 100) }] }

/-- A callback delivering ResultCode as the float 0.0. -/
def cbFloatZero : StkCallback := { cbSuccess with resultCode := some (.vfloat 0) }

/-- A callback delivering ResultCode as the string 0. -/
def cbStrZero : StkCallback := { cbSuccess with resultCode := some (.vstr "0") }

/-- Initiation request used by the concrete runs. -/
def reqData : InitData := {
  phone := some "254708374149"
  amount := .vint 100
  account_reference := none
  transaction_desc := none }

/-- Initiation request with the fractional amount 100.75. -/
def reqDataFrac : InitData := { reqData with amount := .vfloat (mkRat 403 4) }

/-- Provider synchronous response with no errorCode field and no
CheckoutRequestID. -/
def respNoCk : ProviderResponse := {
  errorCode := none
  errorMessage := none
  checkoutRequestID := none
  merchantRequestID := none
  customerMessage := none
  requestID := none }

/-- Provider synchronous response accepting the request as ws_CO_1. -/
def respOk : ProviderResponse := { respNoCk with
  checkoutRequestID := some "ws_CO_1"
  merchantRequestID := some "m1"
  customerMessage := some "Success. Request accepted for processing" }

/-! Supporting lemmas -/

theorem updateFirst_none (p : Transaction → Bool) (f : Transaction → Transaction) :
    ∀ l : List Transaction, (∀ x ∈ l, p x = false) → updateFirst p f l = (l, false) := by
  intro l h
  induction l with
  | nil => rfl
  | cons t ts ih =>
    have ht : p t = false := h t (List.mem_cons_self t ts)
    have hts := ih (fun x hx => h x (List.mem_cons_of_mem t hx))
    simp [updateFirst, ht, hts]

theorem updateFirst_found (p : Transaction → Bool) (f : Transaction → Transaction) :
    ∀ (pre : List Transaction) (t : Transaction) (post : List Transaction),
      (∀ x ∈ pre, p x = false) → p t = true →
      updateFirst p f (pre ++ t :: post) = (pre ++ f t :: post, true) := by
  intro pre
  induction pre with
  | nil => intro t post _ ht; simp [updateFirst, ht]
  | cons u us ih =>
    intro t post h ht
    have hu : p u = false := h u (List.mem_cons_self u us)
    have := ih t post (fun x hx => h x (List.mem_cons_of_mem u hx)) ht
    simp [updateFirst, hu, this]

theorem updateFirst_twice (p : Transaction → Bool) (f1 f2 : Transaction → Transaction)
    (hp : ∀ x, p x = true → p (f1 x) = true)
    (hf : ∀ x, f2 (f1 x) = f2 x) :
    ∀ l : List Transaction, updateFirst p f2 (updateFirst p f1 l).1 = updateFirst p f2 l := by
  intro l
  induction l with
  | nil => rfl
  | cons t ts ih =>
    by_cases ht : p t = true
    · simp [updateFirst, ht, hp t ht, hf t]
    · have ht' : p t = false := by revert ht; cases p t <;> simp
      simp [updateFirst, ht', ih]

theorem applyUpdate_checkout (now : Nat) (stk : StkCallback) (t : Transaction) :
    (applyUpdate now stk t).checkout_request_id = t.checkout_request_id := by
  unfold applyUpdate
  by_cases h : resultIsZero stk.resultCode <;> simp [h]

theorem applyUpdate_status (now : Nat) (stk : StkCallback) (t : Transaction) :
    (applyUpdate now stk t).status = targetStatus stk.resultCode := by
  unfold applyUpdate
  by_cases h : resultIsZero stk.resultCode <;> simp [h]

theorem applyUpdate_absorb (t1 t2 : Nat) (stk : StkCallback) (t : Transaction) :
    applyUpdate t2 stk (applyUpdate t1 stk t) = applyUpdate t2 stk t := by
  unfold applyUpdate
  by_cases h : resultIsZero stk.resultCode <;> simp [h]

theorem applyUpdate_failed_fields (now : Nat) (stk : StkCallback) (t : Transaction)
    (h : resultIsZero stk.resultCode = false) :
    (applyUpdate now stk t).amount = t.amount ∧
    (applyUpdate now stk t).phone = t.phone ∧
    (applyUpdate now stk t).transaction_id = t.transaction_id ∧
    (applyUpdate now stk t).transaction_date = t.transaction_date ∧
    (applyUpdate now stk t).balance = t.balance := by
  unfold applyUpdate
  simp [h]

/-! Claim theorems -/

/-- C7: a well-formed callback whose checkout_request_id matches no
stored transaction yields the not-found outcome (HTTP 404), mutates no
stored transaction and inserts none: the store is returned unchanged. -/
theorem callback_unknown_id_no_mutation (now : Nat) (stk : StkCallback)
    (store : List Transaction) (id : String)
    (hid : stk.checkoutRequestID = some id) (hne : (id == "") = false)
    (hmiss : ∀ t ∈ store, (t.checkout_request_id == PyVal.vstr id) = false) :
    handle_callback now stk store = (store, .notFound) := by
  unfold handle_callback
  rw [hid]
  have hupd := updateFirst_none (fun t => t.checkout_request_id == PyVal.vstr id)
    (applyUpdate now stk) store hmiss
  simp [hne, hupd]

/-- C7 witness: a callback for ws_CO_999 against a store holding only
ws_CO_1 returns 404 and leaves the store unchanged. -/
theorem callback_unknown_id_no_mutation_witness :
    handle_callback 5 cbUnknown [pendingTxn] = ([pendingTxn], .notFound) :=
  callback_unknown_id_no_mutation 5 cbUnknown [pendingTxn] "ws_CO_999" rfl
    (by decide) (by decide)

/-- C6: for a well-formed callback with an integer result code, code 0
maps to SUCCESS and any non-zero code to FAILED; in the FAILED case
the update writes none of the metadata fields (amount, phone,
transaction_id, transaction_date, balance), and whenever the handler
answers 200 it returns exactly the computed status. -/
theorem callback_result_code_mapping (now : Nat) (stk : StkCallback)
    (store : List Transaction) (n : Int) (id : String)
    (hrc : stk.resultCode = some (.vint n))
    (hid : stk.checkoutRequestID = some id) (hne : (id == "") = false) :
    (targetStatus stk.resultCode = if n = 0 then "SUCCESS" else "FAILED") ∧
    (∀ t : Transaction, (applyUpdate now stk t).status = targetStatus stk.resultCode) ∧
    (n ≠ 0 → ∀ t : Transaction,
      (applyUpdate now stk t).status = "FAILED" ∧
      (applyUpdate now stk t).amount = t.amount ∧
      (applyUpdate now stk t).phone = t.phone ∧
      (applyUpdate now stk t).transaction_id = t.transaction_id ∧
      (applyUpdate now stk t).transaction_date = t.transaction_date ∧
      (applyUpdate now stk t).balance = t.balance) ∧
    (∀ r, (handle_callback now stk store).2 = r →
      r = .notFound ∨ r = .ok (targetStatus stk.resultCode)) := by
  have hz : resultIsZero stk.resultCode = decide (n = 0) := by
    by_cases h0 : n = 0 <;> simp [resultIsZero, pyEqZero, hrc, h0]
  refine ⟨?_, ?_, ?_, ?_⟩
  · by_cases h0 : n = 0 <;> simp [targetStatus, hz, h0]
  · intro t; exact applyUpdate_status now stk t
  · intro h0 t
    have hf : resultIsZero stk.resultCode = false := by simp [hz, h0]
    have hfields := applyUpdate_failed_fields now stk t hf
    refine ⟨?_, hfields.1, hfields.2.1, hfields.2.2.1, hfields.2.2.2.1, hfields.2.2.2.2⟩
    rw [applyUpdate_status]
    simp [targetStatus, hf]
  · intro r hr
    unfold handle_callback at hr
    rw [hid] at hr
    simp only [hne, Bool.false_eq_true, if_false] at hr
    by_cases hm : (updateFirst (fun t => t.checkout_request_id == PyVal.vstr id)
        (applyUpdate now stk) store).2 = true
    · right; rw [if_pos hm] at hr; exact hr.symm
    · left; rw [if_neg hm] at hr; exact hr.symm

/-- C6 witness: the concrete ResultCode-1 callback maps to FAILED and
leaves the metadata fields of the pending document unchanged. -/
theorem callback_result_code_mapping_witness :
    (targetStatus cbFail.resultCode = if (1 : Int) = 0 then "SUCCESS" else "FAILED") ∧
    (applyUpdate 3 cbFail pendingTxn).amount = pendingTxn.amount :=
  ⟨(callback_result_code_mapping 3 cbFail [pendingTxn] 1 "ws_CO_1" rfl rfl
      (by decide)).1,
   ((callback_result_code_mapping 3 cbFail [pendingTxn] 1 "ws_CO_1" rfl rfl
      (by decide)).2.2.1 (by decide) pendingTxn).2.1⟩

/-- C2 counterexample: a transaction driven PENDING to terminal FAILED
by a ResultCode-1 callback is driven to SUCCESS by a later ResultCode-0
callback for the same identifier: the status transition is not
one-shot and terminal state is not sticky. -/
theorem reconcile_status_regression_cex :
    ((handle_callback 1 cbFail [pendingTxn]).1.map Transaction.status = ["FAILED"]) ∧
    ((handle_callback 2 cbSuccess
        (handle_callback 1 cbFail [pendingTxn]).1).1.map Transaction.status =
      ["SUCCESS"]) := by decide

/-- C2 (amended): reconcile applies an unconditional overwrite: a
matching callback always rewrites the first matching document with the
full update determined by that callback alone, setting its status to
the status computed from the result code regardless of the prior
(possibly terminal) status; so a later callback with a different
result code changes a terminal status (last-write-wins). -/
theorem reconcile_last_write_wins (now : Nat) (stk : StkCallback) (id : String)
    (pre post : List Transaction) (t : Transaction)
    (hid : stk.checkoutRequestID = some id) (hne : (id == "") = false)
    (hpre : ∀ u ∈ pre, (u.checkout_request_id == PyVal.vstr id) = false)
    (ht : (t.checkout_request_id == PyVal.vstr id) = true) :
    handle_callback now stk (pre ++ t :: post) =
      (pre ++ applyUpdate now stk t :: post, .ok (targetStatus stk.resultCode)) ∧
    (applyUpdate now stk t).status = targetStatus stk.resultCode := by
  constructor
  · unfold handle_callback
    rw [hid]
    have hupd := updateFirst_found (fun u => u.checkout_request_id == PyVal.vstr id)
      (applyUpdate now stk) pre t post hpre ht
    simp [hne, hupd]
  · exact applyUpdate_status now stk t

/-- C2 witness: the success callback rewrites the terminal FAILED
document for ws_CO_1 and answers SUCCESS. -/
theorem reconcile_last_write_wins_witness :
    handle_callback 4 cbSuccess [failedTxn] =
      ([applyUpdate 4 cbSuccess failedTxn], .ok (targetStatus cbSuccess.resultCode)) := by
  have h := reconcile_last_write_wins 4 cbSuccess "ws_CO_1" [] [] failedTxn rfl
    (by decide) (by intro u hu; cases hu) (by decide)
  simpa using h.1

/-- C3 counterexample: reapplying the identical callback payload does
not leave the stored transaction in exactly the same final state as a
single application: the second call rewrites updated_at with its own
current time, so the document after the second call differs from the
document after the first. -/
theorem reconcile_updated_at_cex :
    (handle_callback 2 cbSuccess (handle_callback 1 cbSuccess [pendingTxn]).1).1 ≠
      (handle_callback 1 cbSuccess [pendingTxn]).1 := by decide

/-- C3 (amended): reconcile is idempotent up to updated_at: applying
the identical callback payload a second time, at the time of the
second delivery, produces exactly the store and response that a single
application at that time would have produced; in particular two
applications at the same timestamp leave the identical final state. -/
theorem reconcile_absorb (t1 t2 : Nat) (stk : StkCallback) (store : List Transaction) :
    handle_callback t2 stk (handle_callback t1 stk store).1 =
      handle_callback t2 stk store := by
  unfold handle_callback
  match hcid : stk.checkoutRequestID with
  | none => simp
  | some id =>
    by_cases hne : (id == "") = true
    · simp [hne]
    · have hb : (id == "") = false := by revert hne; cases (id == "") <;> simp
      have habs := updateFirst_twice (fun u => u.checkout_request_id == PyVal.vstr id)
        (applyUpdate t1 stk) (applyUpdate t2 stk)
        (fun x hx => by
          show ((applyUpdate t1 stk x).checkout_request_id == PyVal.vstr id) = true
          rw [applyUpdate_checkout]; exact hx)
        (fun x => applyUpdate_absorb t1 t2 stk x) store
      simp only [hb, Bool.false_eq_true, if_false]
      by_cases hm : (updateFirst (fun u => u.checkout_request_id == PyVal.vstr id)
          (applyUpdate t1 stk) store).2 = true
      · rw [if_pos hm]
        simp only [habs]
      · rw [if_neg hm]
        simp only [habs]

/-- C4 counterexample: a ResultCode-0 callback whose metadata omits
MpesaReceiptNumber leaves the store holding a transaction with
status SUCCESS and a null transaction_id: the claimed invariant fails
after one initiate-like insert and one reconcile. -/
theorem success_null_receipt_cex :
    ((handle_callback 3 cbSuccessNoReceipt [pendingTxn]).1.map
      (fun t => (t.status, t.transaction_id))) = [("SUCCESS", some PyVal.vnull)] := by
  decide

/-- C4 (amended): a zero-result callback always sets status SUCCESS
and sets transaction_id to whatever the metadata holds under
MpesaReceiptNumber, null when the key is absent; so a SUCCESS
transaction carries a receipt only when the callback supplied one. -/
theorem success_receipt_from_metadata (now : Nat) (stk : StkCallback) (t : Transaction)
    (h : resultIsZero stk.resultCode = true) :
    (applyUpdate now stk t).status = "SUCCESS" ∧
    (applyUpdate now stk t).transaction_id =
      some (metaDictGet stk.callbackMetadata "MpesaReceiptNumber") := by
  unfold applyUpdate targetStatus
  simp [h]

/-- C4 witness: the full success callback stores the QK1 receipt. -/
theorem success_receipt_from_metadata_witness :
    (applyUpdate 3 cbSuccess pendingTxn).status = "SUCCESS" ∧
    (applyUpdate 3 cbSuccess pendingTxn).transaction_id =
      some (metaDictGet cbSuccess.callbackMetadata "MpesaReceiptNumber") :=
  success_receipt_from_metadata 3 cbSuccess pendingTxn (by decide)

/-- C9 counterexample: a callback delivering ResultCode as the float
0.0, a non-integer representation of zero, is classified SUCCESS and
its metadata is extracted (receipt QK1 stored), contrary to the claim
that every non-integer representation of zero is classified FAILED. -/
theorem float_zero_classified_success_cex :
    ((handle_callback 9 cbFloatZero [pendingTxn]).1.map
      (fun t => (t.status, t.transaction_id))) =
      [("SUCCESS", some (PyVal.vstr "QK1"))] := by decide

/-- C9 (amended): the classification follows the Python comparison
result_code == 0: exactly the integer 0, the float 0.0 and the boolean
False are classified SUCCESS; a ResultCode delivered as any string, in
particular the string 0, is classified FAILED and none of the metadata
fields is extracted. -/
theorem result_code_classification :
    (∀ rc : Option PyVal, resultIsZero rc = true ↔
      (rc = some (.vint 0) ∨ rc = some (.vfloat 0) ∨ rc = some (.vbool false))) ∧
    (∀ (now : Nat) (stk : StkCallback) (s : String) (t : Transaction),
      stk.resultCode = some (.vstr s) →
      (applyUpdate now stk t).status = "FAILED" ∧
      (applyUpdate now stk t).amount = t.amount ∧
      (applyUpdate now stk t).phone = t.phone ∧
      (applyUpdate now stk t).transaction_id = t.transaction_id ∧
      (applyUpdate now stk t).transaction_date = t.transaction_date ∧
      (applyUpdate now stk t).balance = t.balance) := by
  constructor
  · intro rc
    match rc with
    | none => simp [resultIsZero]
    | some v =>
      cases v with
      | vnull => simp [resultIsZero, pyEqZero]
      | vstr s => simp [resultIsZero, pyEqZero]
      | vbool b => cases b <;> simp [resultIsZero, pyEqZero]
      | vint n =>
        simp only [resultIsZero, pyEqZero, beq_iff_eq, Option.some.injEq,
          PyVal.vint.injEq, decide_eq_true_eq]
        constructor
        · intro hn; exact Or.inl hn
        · intro hn
          rcases hn with h | h | h
          · exact h
          · cases h
          · cases h
      | vfloat q =>
        simp only [resultIsZero, pyEqZero, beq_iff_eq, Option.some.injEq,
          PyVal.vfloat.injEq, decide_eq_true_eq]
        constructor
        · intro hq; exact Or.inr (Or.inl hq)
        · intro hq
          rcases hq with h | h | h
          · cases h
          · exact h
          · cases h
  · intro now stk s t hrc
    have hf : resultIsZero stk.resultCode = false := by
      simp [resultIsZero, pyEqZero, hrc]
    have hfields := applyUpdate_failed_fields now stk t hf
    refine ⟨?_, hfields.1, hfields.2.1, hfields.2.2.1, hfields.2.2.2.1,
      hfields.2.2.2.2⟩
    rw [applyUpdate_status]
    simp [targetStatus, hf]

/-- C9 witness: the string-0 callback leaves the metadata of the
pending document alone and sets FAILED, while the float 0.0 result
code is classified as zero. -/
theorem result_code_classification_witness :
    (applyUpdate 1 cbStrZero pendingTxn).status = "FAILED" ∧
    resultIsZero (some (PyVal.vfloat 0)) = true :=
  ⟨(result_code_classification.2 1 cbStrZero "0" pendingTxn rfl).1,
   (result_code_classification.1 (some (PyVal.vfloat 0))).mpr (Or.inr (Or.inl rfl))⟩

/-- C1 counterexample: with a valid request and a provider response
that has no errorCode field and no CheckoutRequestID, initiate
persists a transaction whose checkout_request_id is null and reports
the attempt as successfully initiated, so a transaction without a
checkout_request_id exists in the store. -/
theorem initiate_missing_checkout_cex :
    (initiate_stk_push 0 cfg0 "pw" "ts" reqData respNoCk []).2.1 =
      InitResult.ok none none none ∧
    ((initiate_stk_push 0 cfg0 "pw" "ts" reqData respNoCk []).1.map
      Transaction.checkout_request_id) = [PyVal.vnull] := by decide

/-- C1 (amended): when the synchronous response carries no errorCode
field and omits CheckoutRequestID, and no stored transaction already
has a null identifier, initiate persists a PENDING transaction with a
null checkout_request_id and reports success to the caller; only a
second such attempt would be rejected, as a duplicate. -/
theorem initiate_missing_checkout_persists (now : Nat) (cfg : AppConfig)
    (pw ts : String) (data : InitData) (resp : ProviderResponse)
    (store : List Transaction) (amt : Rat)
    (hphone : (validate_phone_opt data.phone).1 = true)
    (hamt : validate_amount data.amount = .ok amt)
    (herr : resp.errorCode = none)
    (hck : resp.checkoutRequestID = none)
    (hdup : (store.any (fun t => t.checkout_request_id == PyVal.vnull)) = false) :
    (initiate_stk_push now cfg pw ts data resp store).2.1 =
      .ok none resp.merchantRequestID resp.customerMessage ∧
    (initiate_stk_push now cfg pw ts data resp store).1.length = store.length + 1 ∧
    ((initiate_stk_push now cfg pw ts data resp store).1.getLast?.map
      Transaction.checkout_request_id) = some PyVal.vnull ∧
    ((initiate_stk_push now cfg pw ts data resp store).1.getLast?.map
      Transaction.status) = some "PENDING" := by
  unfold initiate_stk_push
  simp [hphone, hamt, herr, hck, hdup, optStrPy, List.getLast?_concat]

/-- C1 witness: the concrete run on an empty store. -/
theorem initiate_missing_checkout_persists_witness :
    (initiate_stk_push 0 cfg0 "pw" "ts" reqData respNoCk []).2.1 =
      InitResult.ok none respNoCk.merchantRequestID respNoCk.customerMessage ∧
    ((initiate_stk_push 0 cfg0 "pw" "ts" reqData respNoCk []).1.getLast?.map
      Transaction.status) = some "PENDING" := by
  have h := initiate_missing_checkout_persists 0 cfg0 "pw" "ts" reqData respNoCk []
    100 (by decide) (by decide) rfl rfl (by decide)
  exact ⟨h.1, h.2.2.2⟩

/-- C10: on an accepted initiation, the Amount submitted to the
provider is the integer truncation of the validated amount (its floor,
the amount being at least the configured minimum 1), while the PENDING
transaction appended to the store keeps the full validated value; for
a fractional validated amount the two therefore differ. -/
theorem initiate_amount_truncation (now : Nat) (cfg : AppConfig)
    (pw ts : String) (data : InitData) (resp : ProviderResponse)
    (store : List Transaction) (amt : Rat)
    (hphone : (validate_phone_opt data.phone).1 = true)
    (hamt : validate_amount data.amount = .ok amt)
    (herr : resp.errorCode = none)
    (hdup : (store.any
      (fun t => t.checkout_request_id == optStrPy resp.checkoutRequestID)) = false) :
    ((initiate_stk_push now cfg pw ts data resp store).2.2.map
      StkPayload.amount) = some (Rat.floor amt) ∧
    ((initiate_stk_push now cfg pw ts data resp store).1.getLast?.map
      Transaction.amount) = some (PyVal.vfloat amt) ∧
    ((Rat.floor amt : Rat) ≤ amt ∧ amt < (Rat.floor amt : Rat) + 1) ∧
    (amt.den ≠ 1 → (Rat.floor amt : Rat) ≠ amt) := by
  have hge : (1 : Rat) ≤ amt := by
    match hpf : pyFloatOpt data.amount with
    | none => simp [validate_amount, hpf] at hamt
    | some a =>
      simp only [validate_amount, hpf] at hamt
      by_cases hlt : a < 1
      · simp [hlt] at hamt
      · by_cases hgt : a > 70000
        · simp [hlt, hgt] at hamt
        · simp only [hlt, hgt, if_false, if_neg, AmountCheck.ok.injEq] at hamt
          rw [← hamt]
          exact le_of_not_lt hlt
  have h0 : (0 : Rat) ≤ amt := le_trans (by norm_num) hge
  have hfl : Rat.floor amt = ⌊amt⌋ := (Rat.floor_def' amt).trans Rat.floor_def.symm
  have htr : pyTrunc amt = Rat.floor amt := by unfold pyTrunc; rw [if_pos h0]
  refine ⟨?_, ?_, ?_, ?_⟩
  · unfold initiate_stk_push
    simp [hphone, hamt, herr, hdup, htr]
  · unfold initiate_stk_push
    simp [hphone, hamt, herr, hdup, List.getLast?_concat]
  · rw [hfl]
    exact ⟨Int.floor_le amt, Int.lt_floor_add_one amt⟩
  · intro hden heq
    rw [hfl] at heq
    have : amt.den = 1 := by
      rw [← heq]
      exact Rat.den_intCast ⌊amt⌋
    exact hden this

/-- C10 witness: initiating with the validated amount 100.75 submits
the integer 100 to the provider while persisting 100.75, and the two
differ. -/
theorem initiate_amount_truncation_witness :
    ((initiate_stk_push 0 cfg0 "pw" "ts" reqDataFrac respOk []).2.2.map
      StkPayload.amount) = some (Rat.floor (mkRat 403 4)) ∧
    ((initiate_stk_push 0 cfg0 "pw" "ts" reqDataFrac respOk []).1.getLast?.map
      Transaction.amount) = some (PyVal.vfloat (mkRat 403 4)) ∧
    (Rat.floor (mkRat 403 4) = 100 ∧ (mkRat 403 4).den = 4) ∧
    (Rat.floor (mkRat 403 4) : Rat) ≠ mkRat 403 4 := by
  have h := initiate_amount_truncation 0 cfg0 "pw" "ts" reqDataFrac respOk []
    (mkRat 403 4) (by decide) (by decide) rfl (by decide)
  exact ⟨h.1, h.2.1, by decide, h.2.2.2 (by decide)⟩

theorem listStarts_iff_append : ∀ (ps l : List Char),
    listStarts ps l = true ↔ ∃ t, l = ps ++ t := by
  intro ps
  induction ps with
  | nil => intro l; simp [listStarts]
  | cons p ps ih =>
    intro l
    cases l with
    | nil => simp [listStarts]
    | cons c cs =>
      simp only [listStarts, Bool.and_eq_true, beq_iff_eq, ih cs, List.cons_append,
        List.cons.injEq]
      constructor
      · rintro ⟨hpc, t, ht⟩; exact ⟨t, hpc.symm, ht⟩
      · rintro ⟨t, hpc, ht⟩; exact ⟨hpc.symm, t, ht⟩

theorem stripNonDigits_data (s : String) :
    (stripNonDigits s).data = List.filter Char.isDigit s.data := rfl

theorem stripNonDigits_all_digits (s : String) :
    ∀ c ∈ (stripNonDigits s).data, c.isDigit = true := by
  intro c hc
  rw [stripNonDigits_data] at hc
  exact (List.mem_filter.mp hc).2

theorem stripNonDigits_ne_empty (s : String)
    (h : (stripNonDigits s).data ≠ []) : s ≠ "" := by
  intro hs
  subst hs
  exact h rfl

/-- C5 counterexample: the input 123 is non-empty, normalizes to a
string whose length is not 12, yet the rejection reason is the
country-code message, not the length message, because the source
checks the 254 prefix before the length; and the input abc normalizes
to the empty string yet is rejected with the country-code reason, not
the missing-input reason, because emptiness is tested on the raw
input before stripping. -/
theorem phone_reason_order_cex :
    stripNonDigits "123" ≠ "" ∧
    (stripNonDigits "123").length ≠ 12 ∧
    validate_phone_number "123" = (false, "Phone number must start with 254") ∧
    validate_phone_number "123" ≠
      (false, "Phone number must be 12 digits (254XXXXXXXXX)") ∧
    stripNonDigits "abc" = "" ∧
    validate_phone_number "abc" = (false, "Phone number must start with 254") := by
  decide

/-- C5 (amended): validate_phone_number accepts exactly the inputs
whose digit-stripped form matches 254[17] followed by eight digits,
returning the normalized 12-digit string; rejection reasons follow the
order of checks in the source: raw emptiness gives the missing-input
reason, then a stripped form not starting with 254 gives the
country-code reason, then a length other than 12 gives the length
reason, then a 4th digit other than 1 or 7 gives the
unsupported-number reason. -/
theorem validate_phone_characterization (s : String) :
    (matchesKenyan (stripNonDigits s) = true →
      validate_phone_number s = (true, stripNonDigits s)) ∧
    ((validate_phone_number s).1 = true → matchesKenyan (stripNonDigits s) = true) ∧
    (s = "" → validate_phone_number s = (false, "Phone number is required")) ∧
    (s ≠ "" → strStarts (stripNonDigits s) "254" = false →
      validate_phone_number s = (false, "Phone number must start with 254")) ∧
    (s ≠ "" → strStarts (stripNonDigits s) "254" = true →
      (stripNonDigits s).length ≠ 12 →
      validate_phone_number s =
        (false, "Phone number must be 12 digits (254XXXXXXXXX)")) ∧
    (s ≠ "" → strStarts (stripNonDigits s) "254" = true →
      (stripNonDigits s).length = 12 →
      (strStarts (stripNonDigits s) "2547" || strStarts (stripNonDigits s) "2541")
        = false →
      validate_phone_number s =
        (false, "Phone number must be a valid Safaricom number")) := by
  refine ⟨?_, ?_, ?_, ?_, ?_, ?_⟩
  · intro hm
    unfold matchesKenyan at hm
    split at hm
    next c rest heq =>
      simp only [Bool.and_eq_true, Bool.or_eq_true, beq_iff_eq] at hm
      obtain ⟨⟨hc, hlen8⟩, hdig⟩ := hm
      have hnes : s ≠ "" := stripNonDigits_ne_empty s (by rw [heq]; simp)
      have hb : (s == "") = false := by rw [beq_eq_false_iff_ne]; exact hnes
      have h254 : strStarts (stripNonDigits s) "254" = true := by
        unfold strStarts
        rw [listStarts_iff_append]
        exact ⟨c :: rest, by rw [heq]; rfl⟩
      have hlen : (stripNonDigits s).length = 12 := by
        show (stripNonDigits s).data.length = 12
        rw [heq]
        simp [hlen8]
      have hpre : (strStarts (stripNonDigits s) "2547" ||
          strStarts (stripNonDigits s) "2541") = true := by
        rw [Bool.or_eq_true]
        rcases hc with h1 | h7
        · right
          unfold strStarts
          rw [listStarts_iff_append]
          exact ⟨rest, by rw [heq, h1]; rfl⟩
        · left
          unfold strStarts
          rw [listStarts_iff_append]
          exact ⟨rest, by rw [heq, h7]; rfl⟩
      simp [validate_phone_number, hb, h254, hlen, hpre]
    next => cases hm
  · intro hv
    by_cases hb : (s == "") = true
    · simp [validate_phone_number, hb] at hv
    · have hb' : (s == "") = false := by revert hb; cases (s == "") <;> simp
      by_cases h254 : strStarts (stripNonDigits s) "254" = true
      · by_cases hlen : (stripNonDigits s).length = 12
        · by_cases hpre : (strStarts (stripNonDigits s) "2547" ||
              strStarts (stripNonDigits s) "2541") = true
          · clear hv
            have hlend : (stripNonDigits s).data.length = 12 := hlen
            rw [Bool.or_eq_true] at hpre
            unfold strStarts at hpre
            rcases hpre with h7 | h1
            · obtain ⟨t, ht⟩ := (listStarts_iff_append _ _).mp h7
              have e7 : ("2547" : String).data = ['2', '5', '4', '7'] := rfl
              rw [e7] at ht
              unfold matchesKenyan
              rw [ht]
              simp only [List.cons_append, List.nil_append]
              rw [ht, List.length_append] at hlend
              simp only [Bool.and_eq_true, Bool.or_eq_true, beq_iff_eq]
              refine ⟨⟨by simp, by simp at hlend; omega⟩, ?_⟩
              rw [List.all_eq_true]
              intro c hc
              exact stripNonDigits_all_digits s c
                (by rw [ht]; exact List.mem_append_right _ hc)
            · obtain ⟨t, ht⟩ := (listStarts_iff_append _ _).mp h1
              have e1 : ("2541" : String).data = ['2', '5', '4', '1'] := rfl
              rw [e1] at ht
              unfold matchesKenyan
              rw [ht]
              simp only [List.cons_append, List.nil_append]
              rw [ht, List.length_append] at hlend
              simp only [Bool.and_eq_true, Bool.or_eq_true, beq_iff_eq]
              refine ⟨⟨by simp, by simp at hlend; omega⟩, ?_⟩
              rw [List.all_eq_true]
              intro c hc
              exact stripNonDigits_all_digits s c
                (by rw [ht]; exact List.mem_append_right _ hc)
          · have hpre' : (strStarts (stripNonDigits s) "2547" ||
                strStarts (stripNonDigits s) "2541") = false := by
              revert hpre
              cases (strStarts (stripNonDigits s) "2547" ||
                strStarts (stripNonDigits s) "2541") <;> simp
            simp [validate_phone_number, hb', h254, hlen, hpre'] at hv
        · simp [validate_phone_number, hb', h254, hlen] at hv
      · have h254' : strStarts (stripNonDigits s) "254" = false := by
          revert h254
          cases strStarts (stripNonDigits s) "254" <;> simp
        simp [validate_phone_number, hb', h254'] at hv
  · intro hs
    subst hs
    rfl
  · intro hnes h254
    have hb : (s == "") = false := by rw [beq_eq_false_iff_ne]; exact hnes
    simp [validate_phone_number, hb, h254]
  · intro hnes h254 hlen
    have hb : (s == "") = false := by rw [beq_eq_false_iff_ne]; exact hnes
    simp [validate_phone_number, hb, h254, hlen]
  · intro hnes h254 hlen hpre
    have hb : (s == "") = false := by rw [beq_eq_false_iff_ne]; exact hnes
    simp [validate_phone_number, hb, h254, hlen, hpre]

/-- C5 witness: an input with punctuation and spaces whose stripped
form matches the pattern is accepted and normalized. -/
theorem validate_phone_characterization_witness :
    matchesKenyan (stripNonDigits "+254 708-374-149") = true ∧
    validate_phone_number "+254 708-374-149" =
      (true, stripNonDigits "+254 708-374-149") :=
  ⟨by decide,
   (validate_phone_characterization "+254 708-374-149").1 (by decide)⟩

/-- C8: the query service returns only stored transactions matching
the phone filter exactly and the status filter upper-cased, ordered by
created_at descending, with at most min(limit, 100) entries taken
after the skip offset, reporting the page length as count and the full
filtered count as total, the latter independent of limit and skip. -/
theorem get_transactions_spec (phone status : Option String) (limit skip : Nat)
    (store : List Transaction) :
    (∀ t ∈ (get_transactions phone status limit skip store).1,
      matchesQuery phone status t = true ∧ t ∈ store) ∧
    (∀ t ∈ (get_transactions phone status limit skip store).1, ∀ p : String,
      phone = some p → (p == "") = false → t.phone = PyVal.vstr p) ∧
    (∀ t ∈ (get_transactions phone status limit skip store).1, ∀ u : String,
      status = some u → (u == "") = false → t.status = u.toUpper) ∧
    (get_transactions phone status limit skip store).1.length ≤ min limit 100 ∧
    List.Pairwise (fun a b => b.created_at ≤ a.created_at)
      (get_transactions phone status limit skip store).1 ∧
    (get_transactions phone status limit skip store).2.1 =
      (get_transactions phone status limit skip store).1.length ∧
    (get_transactions phone status limit skip store).2.2 =
      (store.filter (matchesQuery phone status)).length ∧
    (∀ limit2 skip2 : Nat,
      (get_transactions phone status limit2 skip2 store).2.2 =
      (get_transactions phone status limit skip store).2.2) := by
  have hmem : ∀ t ∈ (get_transactions phone status limit skip store).1,
      t ∈ store.filter (matchesQuery phone status) := by
    intro t ht
    unfold get_transactions at ht
    have h1 := List.mem_of_mem_take ht
    have h2 := List.mem_of_mem_drop h1
    rwa [List.mem_mergeSort] at h2
  refine ⟨?_, ?_, ?_, ?_, ?_, rfl, rfl, fun l2 s2 => rfl⟩
  · intro t ht
    have hf := List.mem_filter.mp (hmem t ht)
    exact ⟨hf.2, hf.1⟩
  · intro t ht p hp hpne
    have hq := (List.mem_filter.mp (hmem t ht)).2
    unfold matchesQuery at hq
    rw [hp] at hq
    simp only [hpne, Bool.false_eq_true, if_false, Bool.and_eq_true,
      beq_iff_eq] at hq
    exact hq.1
  · intro t ht u hu hune
    have hq := (List.mem_filter.mp (hmem t ht)).2
    unfold matchesQuery at hq
    rw [hu] at hq
    simp only [hune, Bool.false_eq_true, if_false, Bool.and_eq_true,
      beq_iff_eq] at hq
    exact hq.2
  · exact List.length_take_le _ _
  · have htrans : ∀ a b c : Transaction,
        (fun a b : Transaction => decide (b.created_at ≤ a.created_at)) a b →
        (fun a b : Transaction => decide (b.created_at ≤ a.created_at)) b c →
        (fun a b : Transaction => decide (b.created_at ≤ a.created_at)) a c := by
      intro a b c hab hbc
      simp only [decide_eq_true_eq] at hab hbc ⊢
      exact le_trans hbc hab
    have htot : ∀ a b : Transaction,
        ((fun a b : Transaction => decide (b.created_at ≤ a.created_at)) a b ||
         (fun a b : Transaction => decide (b.created_at ≤ a.created_at)) b a) := by
      intro a b
      rcases Nat.le_total b.created_at a.created_at with h | h <;> simp [h]
    have hsorted := List.sorted_mergeSort htrans htot
      (store.filter (matchesQuery phone status))
    have hsub : List.Sublist (get_transactions phone status limit skip store).1
        (List.mergeSort (store.filter (matchesQuery phone status))
          (fun a b => decide (b.created_at ≤ a.created_at))) := by
      unfold get_transactions
      exact (List.take_sublist _ _).trans (List.drop_sublist _ _)
    exact (hsorted.sublist hsub).imp (fun h => by simpa using h)

/-- C8 witness: a concrete two-element store queried with a phone
filter, limit 10 and skip 0. -/
theorem get_transactions_spec_witness :
    (get_transactions (some "254708374149") none 10 0
      [pendingTxn, failedTxn]).1.length ≤ min 10 100 ∧
    List.Pairwise (fun a b => b.created_at ≤ a.created_at)
      (get_transactions (some "254708374149") none 10 0
        [pendingTxn, failedTxn]).1 :=
  ⟨(get_transactions_spec (some "254708374149") none 10 0
      [pendingTxn, failedTxn]).2.2.2.1,
   (get_transactions_spec (some "254708374149") none 10 0
      [pendingTxn, failedTxn]).2.2.2.2.1⟩
